import Mathlib

/-!
Shallow embedding of the MutexTalk c-daemon core
(src/c-daemon/src/semaphore.c, db.c, db_simple.c, logger.c, admin.c,
handlers.c) and proofs about the permit arbiter, ownership gate,
audit logger, admin gate and command dispatcher.

Modelling conventions:
* The process-global state (semaphore state, SQLite tables, flat files,
  logger file) is collected into one explicit record `SysState`; every C
  function becomes a pure function returning its `int` status together
  with the updated state.
* C strings are Lean `String`s; a nullable `const char *` argument is an
  `Option String` (with `none` for NULL) exactly where the C code checks
  for NULL.  `strlen` is `String.length`.
* Wall-clock timestamps are external input and carry no information the
  claims depend on, so timestamp fields are elided.
* SQLite is modelled by the relational content the prepared statements
  touch: the `messages` table is a list with an AUTOINCREMENT id counter
  and the `transactions` table is a list of log rows; the CHECK
  constraints of the schema (semaphore_value in (0,1), action enum,
  content length) are part of the model of `insert_log_entry`.
* Out parameters that every caller passes as valid buffers
  (`holder`, `value`, `out_timestamp`, `out_json`) are modelled as
  return values; the NULL-out-parameter branches are unreachable from
  the embedded callers and are not modelled.
-/

set_option linter.all false

/-- Models C `strncpy(dst, src, n)` truncation of a string to at most
`n` characters (semaphore.c copies at most MAX_USERNAME_LEN - 1 = 63). -/
def cTruncate (s : String) (n : Nat) : String :=
  String.mk (s.data.take n)

/-- A row of the `messages` table (db.c schema, timestamp elided). -/
structure Message where
  id : Int
  username : String
  message : String
deriving DecidableEq, Repr

/-- A row of the `transactions` log table / one line of the log file
(logger.c, db.c schema; timestamp elided). -/
structure LogEntry where
  action : String
  user : Option String
  content : Option String
  semaphore_value : Int
deriving DecidableEq, Repr

/-- The whole mutable state of the daemon process: the global
`semaphore_state_t` of semaphore.c, the SQLite tables of db.c, the flat
files of db_simple.c and the file sink of logger.c. -/
structure SysState where
  /-- `g_initialized` of semaphore.c. -/
  sem_initialized : Bool
  /-- whether `write_mutex` is currently locked (trylock discipline). -/
  write_mutex_locked : Bool
  /-- `g_semaphore_state.current_holder`; `""` means free. -/
  current_holder : String
  /-- `g_semaphore_state.writer_enabled`. -/
  writer_enabled : Bool
  /-- `g_db_initialized` of db.c / db_simple.c. -/
  db_initialized : Bool
  /-- rows of the `messages` table of db.c, in insertion order. -/
  messages : List Message
  /-- next AUTOINCREMENT id of the `messages` table. -/
  next_id : Int
  /-- rows of the `transactions` table of db.c, in insertion order. -/
  dbLog : List LogEntry
  /-- lines of the append-only file sink of logger.c. -/
  fileLog : List LogEntry
  /-- `logger_initialized` of logger.c. -/
  logger_initialized : Bool
  /-- lines of `messages.txt` of db_simple.c: (username, message). -/
  simple_messages : List (String × String)
  /-- lines of `logs.txt` of db_simple.c. -/
  simple_logs : List LogEntry
deriving DecidableEq, Repr

/-- The state right after `init_semaphore`, `init_databases` and
`init_logger` all succeeded on a fresh process. -/
def init0 : SysState :=
  { sem_initialized := true
    write_mutex_locked := false
    current_holder := ""
    writer_enabled := true
    db_initialized := true
    messages := []
    next_id := 1
    dbLog := []
    fileLog := []
    logger_initialized := true
    simple_messages := []
    simple_logs := [] }

/-- semaphore.c `try_acquire_writer`: non-blocking acquire of the
writer permit.  Returns the C status code and the new state. -/
def try_acquire_writer (username : Option String) (s : SysState) :
    Int × SysState :=
  if s.sem_initialized = false then (-1, s)
  else
    match username with
    | none => (-4, s)
    | some u =>
      if u = "" then (-4, s)
      else if 64 ≤ u.length then (-4, s)
      else if s.writer_enabled = false then (-2, s)
      else if s.write_mutex_locked = false then
        (0, { s with write_mutex_locked := true
                     current_holder := cTruncate u 63 })
      else (-3, s)

/-- semaphore.c `release_writer`: release with ownership validation. -/
def release_writer (username : Option String) (s : SysState) :
    Int × SysState :=
  if s.sem_initialized = false then (-1, s)
  else
    match username with
    | none => (-4, s)
    | some u =>
      if u = "" then (-4, s)
      else if s.current_holder ≠ u then (-2, s)
      else (0, { s with current_holder := ""
                        write_mutex_locked := false })

/-- semaphore.c `get_semaphore_status`: returns the C status code, the
holder written into the out buffer, and the out semaphore value
(0 = held, 1 = free). -/
def get_semaphore_status (s : SysState) : Int × String × Int :=
  if s.sem_initialized = false then (-1, "", 0)
  else if s.current_holder ≠ "" then (0, cTruncate s.current_holder 63, 0)
  else (0, "", 1)

/-- semaphore.c `admin_toggle_writer`: sets the global writer-enabled
flag; no privilege check is performed by this function. -/
def admin_toggle_writer (enabled : Bool) (admin_user : Option String)
    (s : SysState) : Int × SysState :=
  if s.sem_initialized = false then (-1, s)
  else
    match admin_user with
    | none => (-4, s)
    | some a =>
      if a = "" then (-4, s)
      else (0, { s with writer_enabled := enabled })

/-- db.c / db_simple.c `validate_semaphore_ownership`: the ownership
gate consulted before every mutating storage call. -/
def validate_semaphore_ownership (username : String) (s : SysState) : Int :=
  if (get_semaphore_status s).1 ≠ 0 then -1
  else if (get_semaphore_status s).2.2 = 1 then -2
  else if (get_semaphore_status s).2.1 ≠ username then -2
  else 0

/-- db.c `insert_log_entry`: one INSERT into the `transactions` table.
The schema CHECK constraints (action enum, content length,
semaphore_value in (0,1)) make the INSERT fail with a database error
when violated. -/
def insert_log_entry (action : String) (user content : Option String)
    (semaphore_value : Int) (s : SysState) : Int × SysState :=
  if s.db_initialized = false then (-1, s)
  else if ¬ (action = "CREATE" ∨ action = "UPDATE" ∨ action = "DELETE" ∨
             action = "READ" ∨ action = "ACQUIRE_MUTEX" ∨
             action = "RELEASE_MUTEX" ∨ action = "ADMIN_ACTION") then (-5, s)
  else if (∃ c ∈ content, 2000 < c.length) then (-5, s)
  else if ¬ (semaphore_value = 0 ∨ semaphore_value = 1) then (-5, s)
  else (0, { s with dbLog := s.dbLog ++
    [{ action := action, user := user, content := content,
       semaphore_value := semaphore_value }] })

/-- logger.c `log_transaction`: dual-sink audit record.  A structured
row is attempted in the database sink; the file sink is written
regardless of the database result.  Callers always pass a non-NULL
action literal, so `action` is a plain `String`. -/
def log_transaction (action : String) (user content : Option String)
    (semaphore_value : Int) (s : SysState) : SysState :=
  if s.logger_initialized = false then s
  else if ¬ (semaphore_value = 0 ∨ semaphore_value = 1) then s
  else
    let s1 := (insert_log_entry action user content semaphore_value s).2
    { s1 with fileLog := s1.fileLog ++
      [{ action := action, user := user, content := content,
         semaphore_value := semaphore_value }] }

/-- db.c `create_message`: validates lengths, consults the ownership
gate, inserts the row, then logs one CREATE transaction.  The returned
`out_timestamp` carries no modelled information and is elided. -/
def create_message (username message : Option String) (s : SysState) :
    Int × SysState :=
  if s.db_initialized = false then (-1, s)
  else
    match username, message with
    | some u, some m =>
      if u = "" ∨ 64 < u.length ∨ m = "" ∨ 2000 < m.length then (-4, s)
      else if validate_semaphore_ownership u s ≠ 0 then
        (validate_semaphore_ownership u s, s)
      else
        let s1 := { s with
          messages := s.messages ++
            [{ id := s.next_id, username := u, message := m }]
          next_id := s.next_id + 1 }
        (0, log_transaction "CREATE" (some u) (some m)
              (get_semaphore_status s1).2.2 s1)
    | _, _ => (-4, s)

/-- db.c `update_message`: `UPDATE messages SET message = ? WHERE
id = ? AND username = ?`; zero affected rows yields -2. -/
def update_message (id : Int) (username message : Option String)
    (s : SysState) : Int × SysState :=
  if s.db_initialized = false then (-1, s)
  else
    match username, message with
    | some u, some m =>
      if u = "" ∨ 64 < u.length ∨ m = "" ∨ 2000 < m.length then (-4, s)
      else if validate_semaphore_ownership u s ≠ 0 then
        (validate_semaphore_ownership u s, s)
      else if s.messages.any (fun msg => msg.id == id && msg.username == u) then
        let s1 := { s with
          messages := s.messages.map (fun msg =>
            if msg.id == id && msg.username == u then
              { msg with message := m }
            else msg) }
        (0, log_transaction "UPDATE" (some u)
              (some ("Updated message ID " ++ toString id))
              (get_semaphore_status s1).2.2 s1)
      else (-2, s)
    | _, _ => (-4, s)

/-- db.c `delete_message`: `DELETE FROM messages WHERE id = ? AND
username = ?`; zero affected rows yields -2. -/
def delete_message (id : Int) (username : Option String) (s : SysState) :
    Int × SysState :=
  if s.db_initialized = false then (-1, s)
  else
    match username with
    | some u =>
      if u = "" ∨ 64 < u.length then (-4, s)
      else if validate_semaphore_ownership u s ≠ 0 then
        (validate_semaphore_ownership u s, s)
      else if s.messages.any (fun msg => msg.id == id && msg.username == u) then
        let s1 := { s with
          messages := s.messages.filter (fun msg =>
            ¬ (msg.id == id && msg.username == u)) }
        (0, log_transaction "DELETE" (some u)
              (some ("Deleted message ID " ++ toString id))
              (get_semaphore_status s1).2.2 s1)
      else (-2, s)
    | none => (-4, s)

/-- db.c `list_messages`: pagination bounds check, `SELECT ... ORDER BY
created_at DESC LIMIT ? OFFSET ?` (timestamps are non-decreasing in
insertion order, so newest-first is reverse insertion order), then one
READ log record with NULL user.  The JSON rendering of the selected
rows is modelled by the row list itself. -/
def list_messages (page limit : Int) (s : SysState) :
    Int × List Message × SysState :=
  if s.db_initialized = false then (-1, [], s)
  else if page < 1 ∨ limit < 1 ∨ 100 < limit then (-4, [], s)
  else
    let offset := (page - 1) * limit
    let rows := (s.messages.reverse.drop offset.toNat).take limit.toNat
    (0, rows, log_transaction "READ" none
         (some ("Listed messages (page " ++ toString page ++ ", limit " ++
                toString limit ++ ")"))
         (get_semaphore_status s).2.2 s)

/-- db.c `get_logs`: pagination bounds check and `SELECT ... ORDER BY
ts DESC LIMIT ? OFFSET ?` over the `transactions` table; no log record
is appended by this function. -/
def get_logs (page limit : Int) (s : SysState) :
    Int × List LogEntry × SysState :=
  if s.db_initialized = false then (-1, [], s)
  else if page < 1 ∨ limit < 1 ∨ 100 < limit then (-4, [], s)
  else
    let offset := (page - 1) * limit
    (0, (s.dbLog.reverse.drop offset.toNat).take limit.toNat, s)

/-- admin.c `is_admin_user`: membership in the static allow-list. -/
def is_admin_user (username : Option String) : Bool :=
  match username with
  | none => false
  | some u =>
    u == "admin" || u == "administrator" || u == "root" || u == "sysadmin"

/-- admin.c `admin_get_logs`: the privileged wrapper around `get_logs`;
checks the allow-list before touching storage and appends one
ADMIN_ACTION record on success. -/
def admin_get_logs (admin_user : Option String) (page limit : Int)
    (s : SysState) : Int × List LogEntry × SysState :=
  match admin_user with
  | none => (-4, [], s)
  | some a =>
    if a = "" ∨ 64 ≤ a.length then (-4, [], s)
    else if is_admin_user (some a) = false then (-2, [], s)
    else if page < 1 ∨ limit < 1 ∨ 100 < limit then (-4, [], s)
    else
      let r := get_logs page limit s
      if r.1 ≠ 0 then (r.1, [], r.2.2)
      else
        (0, r.2.1, log_transaction "ADMIN_ACTION" (some a)
             (some "Admin accessed logs")
             (get_semaphore_status r.2.2).2.2 r.2.2)

/-- admin.c `admin_force_release_semaphore`: privileged forced release.
When the permit is free it returns success before any logging; when
held it logs one ADMIN_ACTION record (with semaphore value 0) and then
re-enters `release_writer` with the captured holder identity. -/
def admin_force_release_semaphore (admin_user : Option String)
    (s : SysState) : Int × SysState :=
  match admin_user with
  | none => (-4, s)
  | some a =>
    if a = "" ∨ 64 ≤ a.length then (-4, s)
    else if is_admin_user (some a) = false then (-2, s)
    else if (get_semaphore_status s).1 ≠ 0 then (-1, s)
    else if (get_semaphore_status s).2.2 = 1 then (0, s)
    else
      let holder := (get_semaphore_status s).2.1
      let s1 := log_transaction "ADMIN_ACTION" (some a)
        (some ("Admin forced release of semaphore from user " ++ holder))
        0 s
      let r := release_writer (some holder) s1
      if r.1 ≠ 0 then (-1, r.2) else (0, r.2)

namespace FileDb

/-- db_simple.c `insert_log_entry`: append one line to `logs.txt`; no
CHECK constraints exist in the flat-file sink. -/
def insert_log_entry (action : String) (user content : Option String)
    (semaphore_value : Int) (s : SysState) : Int × SysState :=
  if s.db_initialized = false then (-1, s)
  else (0, { s with simple_logs := s.simple_logs ++
    [{ action := action, user := user, content := content,
       semaphore_value := semaphore_value }] })

/-- db_simple.c `create_message`: same validation and ownership gate as
the relational implementation, then appends one `messages.txt` line and
one log line with a hardcoded semaphore value of 0. -/
def create_message (username message : Option String) (s : SysState) :
    Int × SysState :=
  if s.db_initialized = false then (-1, s)
  else
    match username, message with
    | some u, some m =>
      if u = "" ∨ 64 < u.length ∨ m = "" ∨ 2000 < m.length then (-4, s)
      else if validate_semaphore_ownership u s ≠ 0 then
        (validate_semaphore_ownership u s, s)
      else
        let s1 := { s with simple_messages := s.simple_messages ++ [(u, m)] }
        (0, (insert_log_entry "CREATE" (some u) (some m) 0 s1).2)
    | _, _ => (-4, s)

/-- db_simple.c `update_message`: after the ownership gate it simply
appends a new message whose body is prefixed with `[UPDATED ID:n]`;
it never inspects the existing messages.  The C code performs no NULL
check on its pointer arguments, so the arguments are plain strings. -/
def update_message (id : Int) (username message : String) (s : SysState) :
    Int × SysState :=
  if s.db_initialized = false then (-1, s)
  else if validate_semaphore_ownership username s ≠ 0 then
    (validate_semaphore_ownership username s, s)
  else
    create_message (some username)
      (some ("[UPDATED ID:" ++ toString id ++ "] " ++ message)) s

end FileDb

/-- handlers.h `command_type_t`. -/
inductive command_type_t where
  | CMD_TRY_ACQUIRE
  | CMD_RELEASE
  | CMD_CREATE_MESSAGE
  | CMD_UPDATE_MESSAGE
  | CMD_DELETE_MESSAGE
  | CMD_LIST_MESSAGES
  | CMD_GET_STATUS
  | CMD_GET_LOGS
  | CMD_TOGGLE_WRITER
deriving DecidableEq, Repr

/-- handlers.c `command_t` after `parse_json_command` zeroed it and
applied the defaults (page 1, limit 50). -/
structure command_t where
  type : command_type_t
  user : String := ""
  message : String := ""
  id : Int := 0
  page : Int := 1
  limit : Int := 50
  enabled : Bool := false
deriving DecidableEq, Repr

/-- The fields a structured request can carry, i.e. the cJSON object of
handlers.c after the transport already parsed the raw bytes; a field
whose JSON value has the wrong type is `none`, exactly like the
`cJSON_Is...` guards treat it. -/
structure ParsedInput where
  action : Option String := none
  user : Option String := none
  message : Option String := none
  id : Option Int := none
  page : Option Int := none
  limit : Option Int := none
  enabled : Option Bool := none
deriving Repr

/-- handlers.c action-string table of `parse_json_command`. -/
def actionToType (a : String) : Option command_type_t :=
  if a = "TRY_ACQUIRE" then some .CMD_TRY_ACQUIRE
  else if a = "RELEASE" then some .CMD_RELEASE
  else if a = "CREATE" then some .CMD_CREATE_MESSAGE
  else if a = "UPDATE" then some .CMD_UPDATE_MESSAGE
  else if a = "DELETE" then some .CMD_DELETE_MESSAGE
  else if a = "LIST" then some .CMD_LIST_MESSAGES
  else if a = "STATUS" then some .CMD_GET_STATUS
  else if a = "LOGS" then some .CMD_GET_LOGS
  else if a = "TOGGLE" then some .CMD_TOGGLE_WRITER
  else none

/-- handlers.c `parse_json_command`: maps the action string, truncates
the copied strings like `strncpy(.., MAX - 1)` does, applies the
defaults page = 1 and limit = 50, and clamps page to at least 1 and
limit into [1, 100]. -/
def parse_json_command (inp : ParsedInput) : Int × command_t :=
  let base : command_t := { type := .CMD_TRY_ACQUIRE }
  match inp.action with
  | none => (-4, base)
  | some a =>
    match actionToType a with
    | none => (-4, base)
    | some t =>
      (0, { type := t
            user := match inp.user with
                    | some u => cTruncate u 63
                    | none => ""
            message := match inp.message with
                       | some m => cTruncate m 1999
                       | none => ""
            id := inp.id.getD 0
            page := match inp.page with
                    | some p => if p < 1 then 1 else p
                    | none => 1
            limit := match inp.limit with
                     | some l => if l < 1 then 1 else if 100 < l then 100 else l
                     | none => 50
            enabled := inp.enabled.getD false })

/-- handlers.c `execute_command`: per-kind required-field validation and
routing.  Note that CMD_GET_LOGS routes straight to the storage
`get_logs` and CMD_TOGGLE_WRITER straight to `admin_toggle_writer`;
neither path consults `is_admin_user`. -/
def execute_command (cmd : command_t) (s : SysState) : Int × SysState :=
  match cmd.type with
  | .CMD_TRY_ACQUIRE =>
    if cmd.user = "" then (-4, s)
    else try_acquire_writer (some cmd.user) s
  | .CMD_RELEASE =>
    if cmd.user = "" then (-4, s)
    else release_writer (some cmd.user) s
  | .CMD_CREATE_MESSAGE =>
    if cmd.user = "" ∨ cmd.message = "" then (-4, s)
    else create_message (some cmd.user) (some cmd.message) s
  | .CMD_UPDATE_MESSAGE =>
    if cmd.user = "" ∨ cmd.message = "" ∨ cmd.id ≤ 0 then (-4, s)
    else update_message cmd.id (some cmd.user) (some cmd.message) s
  | .CMD_DELETE_MESSAGE =>
    if cmd.user = "" ∨ cmd.id ≤ 0 then (-4, s)
    else delete_message cmd.id (some cmd.user) s
  | .CMD_LIST_MESSAGES =>
    let r := list_messages cmd.page cmd.limit s
    (r.1, r.2.2)
  | .CMD_GET_STATUS =>
    ((get_semaphore_status s).1, s)
  | .CMD_GET_LOGS =>
    let r := get_logs cmd.page cmd.limit s
    (r.1, r.2.2)
  | .CMD_TOGGLE_WRITER =>
    if cmd.user = "" then (-4, s)
    else admin_toggle_writer cmd.enabled (some cmd.user) s

/-- handlers.c `handle_command`: parse, then execute; a parse failure
short-circuits without touching any component. -/
def handle_command (inp : ParsedInput) (s : SysState) : Int × SysState :=
  let p := parse_json_command inp
  if p.1 ≠ 0 then (p.1, s)
  else execute_command p.2 s

/-- One request-level operation of the daemon; each constructor is one
of the component entry points reachable from the dispatcher or the
admin layer. -/
inductive Op where
  | tryAcquire (u : Option String)
  | release (u : Option String)
  | toggle (b : Bool) (a : Option String)
  | forceRelease (a : Option String)
  | create (u m : Option String)
  | update (id : Int) (u m : Option String)
  | delete (id : Int) (u : Option String)
  | listMsgs (page limit : Int)
  | readLogs (page limit : Int)
  | adminLogs (a : Option String) (page limit : Int)

/-- The state reached after one operation (the status code of the
operation is not part of the state). -/
def step (o : Op) (s : SysState) : SysState :=
  match o with
  | .tryAcquire u => (try_acquire_writer u s).2
  | .release u => (release_writer u s).2
  | .toggle b a => (admin_toggle_writer b a s).2
  | .forceRelease a => (admin_force_release_semaphore a s).2
  | .create u m => (create_message u m s).2
  | .update id u m => (update_message id u m s).2
  | .delete id u => (delete_message id u s).2
  | .listMsgs p l => (list_messages p l s).2.2
  | .readLogs p l => (get_logs p l s).2.2
  | .adminLogs a p l => (admin_get_logs a p l s).2.2

/-- Running a sequence of operations. -/
def run (ops : List Op) (s : SysState) : SysState :=
  ops.foldl (fun t o => step o t) s

/-- States reachable from the freshly initialized daemon. -/
def Reachable (s : SysState) : Prop :=
  ∃ ops : List Op, s = run ops init0

/-- The permit data-model invariant: the managers are initialized, the
write mutex is locked exactly when some identity holds the permit, and
the stored holder name fits the 64-byte holder buffer. -/
def PermitInv (s : SysState) : Prop :=
  s.sem_initialized = true ∧ s.db_initialized = true ∧
  (s.write_mutex_locked = true ↔ s.current_holder ≠ "") ∧
  s.current_holder.length ≤ 63

/-- Two states that agree on every field the semaphore manager reads or
writes (storage and logging operations relate to their input state like
this). -/
def SameSem (s t : SysState) : Prop :=
  t.sem_initialized = s.sem_initialized ∧
  t.db_initialized = s.db_initialized ∧
  t.write_mutex_locked = s.write_mutex_locked ∧
  t.current_holder = s.current_holder

/-- The state after identity alice acquired the free permit of the
fresh daemon. -/
def s_alice : SysState := (try_acquire_writer (some "alice") init0).2

/-- A 64-character identity, one character past the permitted maximum of
`try_acquire_writer`. -/
def longName : String := String.mk (List.replicate 64 'a')

/-! ### Helper lemmas -/

theorem cTruncate_eq_self (s : String) (n : Nat) (h : s.length ≤ n) :
    cTruncate s n = s := by
  unfold cTruncate
  cases s with
  | mk data =>
    simp only [String.length] at h
    simp [List.take_of_length_le h]

theorem sameSem_refl (s : SysState) : SameSem s s :=
  ⟨rfl, rfl, rfl, rfl⟩

theorem sameSem_trans {s t u : SysState} (h1 : SameSem s t)
    (h2 : SameSem t u) : SameSem s u := by
  obtain ⟨a1, b1, c1, d1⟩ := h1
  obtain ⟨a2, b2, c2, d2⟩ := h2
  exact ⟨a2.trans a1, b2.trans b1, c2.trans c1, d2.trans d1⟩

theorem permitInv_of_sameSem {s t : SysState} (h : SameSem s t)
    (hs : PermitInv s) : PermitInv t := by
  obtain ⟨a, b, c, d⟩ := h
  obtain ⟨h1, h2, h3, h4⟩ := hs
  exact ⟨a.trans h1, b.trans h2, by rw [c, d]; exact h3, by rw [d]; exact h4⟩

theorem sameSem_insert_log (a : String) (u c : Option String) (v : Int)
    (s : SysState) : SameSem s (insert_log_entry a u c v s).2 := by
  unfold insert_log_entry
  repeat' split
  all_goals exact ⟨rfl, rfl, rfl, rfl⟩

theorem sameSem_log_transaction (a : String) (u c : Option String)
    (v : Int) (s : SysState) : SameSem s (log_transaction a u c v s) := by
  unfold log_transaction
  repeat' split
  · exact sameSem_refl s
  · exact sameSem_refl s
  · exact sameSem_insert_log a u c v s

theorem sameSem_create_message (u m : Option String) (s : SysState) :
    SameSem s (create_message u m s).2 := by
  unfold create_message
  dsimp only
  repeat' split
  all_goals
    first
      | exact sameSem_refl s
      | exact sameSem_trans ⟨rfl, rfl, rfl, rfl⟩
          (sameSem_log_transaction _ _ _ _ _)

theorem sameSem_update_message (id : Int) (u m : Option String)
    (s : SysState) : SameSem s (update_message id u m s).2 := by
  unfold update_message
  dsimp only
  repeat' split
  all_goals
    first
      | exact sameSem_refl s
      | exact sameSem_trans ⟨rfl, rfl, rfl, rfl⟩
          (sameSem_log_transaction _ _ _ _ _)

theorem sameSem_delete_message (id : Int) (u : Option String)
    (s : SysState) : SameSem s (delete_message id u s).2 := by
  unfold delete_message
  dsimp only
  repeat' split
  all_goals
    first
      | exact sameSem_refl s
      | exact sameSem_trans ⟨rfl, rfl, rfl, rfl⟩
          (sameSem_log_transaction _ _ _ _ _)

theorem sameSem_list_messages (page limit : Int) (s : SysState) :
    SameSem s (list_messages page limit s).2.2 := by
  unfold list_messages
  dsimp only
  repeat' split
  all_goals
    first
      | exact sameSem_refl s
      | exact sameSem_log_transaction _ _ _ _ _

theorem sameSem_get_logs (page limit : Int) (s : SysState) :
    SameSem s (get_logs page limit s).2.2 := by
  unfold get_logs
  dsimp only
  repeat' split
  all_goals exact sameSem_refl s

theorem sameSem_admin_get_logs (a : Option String) (page limit : Int)
    (s : SysState) : SameSem s (admin_get_logs a page limit s).2.2 := by
  unfold admin_get_logs
  dsimp only
  repeat' split
  all_goals
    first
      | exact sameSem_refl s
      | exact sameSem_get_logs page limit s
      | exact sameSem_trans (sameSem_get_logs page limit s)
          (sameSem_log_transaction _ _ _ _ _)

theorem permitInv_try_acquire (u : Option String) (s : SysState)
    (h : PermitInv s) : PermitInv (try_acquire_writer u s).2 := by
  obtain ⟨h1, h2, h3, h4⟩ := h
  unfold try_acquire_writer
  split
  · exact ⟨h1, h2, h3, h4⟩
  · split
    · exact ⟨h1, h2, h3, h4⟩
    · rename_i v
      split
      · exact ⟨h1, h2, h3, h4⟩
      · split
        · exact ⟨h1, h2, h3, h4⟩
        · split
          · exact ⟨h1, h2, h3, h4⟩
          · split
            · rename_i hne hlen hen hlock
              have hle : v.length ≤ 63 := by omega
              refine ⟨h1, h2, ?_, ?_⟩
              · rw [cTruncate_eq_self _ _ hle]
                exact ⟨fun _ => hne, fun _ => rfl⟩
              · rw [cTruncate_eq_self _ _ hle]
                exact hle
            · exact ⟨h1, h2, h3, h4⟩

theorem permitInv_release (u : Option String) (s : SysState)
    (h : PermitInv s) : PermitInv (release_writer u s).2 := by
  obtain ⟨h1, h2, h3, h4⟩ := h
  unfold release_writer
  split
  · exact ⟨h1, h2, h3, h4⟩
  · split
    · exact ⟨h1, h2, h3, h4⟩
    · split
      · exact ⟨h1, h2, h3, h4⟩
      · split
        · exact ⟨h1, h2, h3, h4⟩
        · exact ⟨h1, h2, by simp, by simp⟩

theorem permitInv_toggle (b : Bool) (a : Option String) (s : SysState)
    (h : PermitInv s) : PermitInv (admin_toggle_writer b a s).2 := by
  obtain ⟨h1, h2, h3, h4⟩ := h
  unfold admin_toggle_writer
  split
  · exact ⟨h1, h2, h3, h4⟩
  · split
    · exact ⟨h1, h2, h3, h4⟩
    · split
      · exact ⟨h1, h2, h3, h4⟩
      · exact ⟨h1, h2, h3, h4⟩

theorem permitInv_force_release (a : Option String) (s : SysState)
    (h : PermitInv s) : PermitInv (admin_force_release_semaphore a s).2 := by
  unfold admin_force_release_semaphore
  cases a with
  | none => exact h
  | some a =>
    dsimp only
    repeat' split
    any_goals exact h
    all_goals
      exact permitInv_release _ _
        (permitInv_of_sameSem (sameSem_log_transaction _ _ _ _ _) h)

theorem permitInv_step (o : Op) (s : SysState) (h : PermitInv s) :
    PermitInv (step o s) := by
  cases o with
  | tryAcquire u => exact permitInv_try_acquire u s h
  | release u => exact permitInv_release u s h
  | toggle b a => exact permitInv_toggle b a s h
  | forceRelease a => exact permitInv_force_release a s h
  | create u m => exact permitInv_of_sameSem (sameSem_create_message u m s) h
  | update id u m =>
    exact permitInv_of_sameSem (sameSem_update_message id u m s) h
  | delete id u =>
    exact permitInv_of_sameSem (sameSem_delete_message id u s) h
  | listMsgs p l =>
    exact permitInv_of_sameSem (sameSem_list_messages p l s) h
  | readLogs p l =>
    exact permitInv_of_sameSem (sameSem_get_logs p l s) h
  | adminLogs a p l =>
    exact permitInv_of_sameSem (sameSem_admin_get_logs a p l s) h

theorem permitInv_init0 : PermitInv init0 := by
  refine ⟨rfl, rfl, ?_, ?_⟩ <;> simp [init0]

theorem permitInv_run (ops : List Op) (s : SysState) (h : PermitInv s) :
    PermitInv (run ops s) := by
  induction ops generalizing s with
  | nil => exact h
  | cons o ops ih => exact ih (step o s) (permitInv_step o s h)

theorem reachable_permitInv (s : SysState) (h : Reachable s) :
    PermitInv s := by
  obtain ⟨ops, rfl⟩ := h
  exact permitInv_run ops init0 permitInv_init0

theorem validate_ownership_cases (u : String) (s : SysState)
    (hsem : s.sem_initialized = true) (hh : s.current_holder.length ≤ 63) :
    (s.current_holder = u → u ≠ "" → validate_semaphore_ownership u s = 0) ∧
    (s.current_holder ≠ u → validate_semaphore_ownership u s = -2) := by
  by_cases hc : s.current_holder = ""
  · constructor
    · intro he hu
      rw [he] at hc
      exact absurd hc hu
    · intro _
      simp [validate_semaphore_ownership, get_semaphore_status, hsem, hc]
  · have hst : get_semaphore_status s = (0, s.current_holder, 0) := by
      simp [get_semaphore_status, hsem, hc, cTruncate_eq_self _ _ hh]
    constructor
    · intro he _
      simp [validate_semaphore_ownership, hst, he]
    · intro hne
      simp [validate_semaphore_ownership, hst, hne]

/-! ### Claim theorems -/

/-- Claim C1, counterexample to the literal statement: alice acquires
the permit, an admin then disables writing, and while alice still holds
the permit a TryAcquire by bob returns permission-denied (-2), not
resource-unavailable (-3) as the claim demands of every TryAcquire in
the window. -/
theorem C1_counterexample :
    ((admin_toggle_writer false (some "admin") s_alice).2).current_holder
      = "alice" ∧
    (try_acquire_writer (some "bob")
      (admin_toggle_writer false (some "admin") s_alice).2).1 = -2 ∧
    (try_acquire_writer (some "bob")
      (admin_toggle_writer false (some "admin") s_alice).2).1 ≠ -3 := by
  refine ⟨rfl, rfl, by decide⟩

/-- Claim C1, amended: in every reachable state in which identity A
holds the permit and writing is globally enabled, a TryAcquire by a
well-formed identity B (nonempty, shorter than 64 characters) returns
resource-unavailable (-3), changes nothing, leaves A the holder, and
`Status()` reports holder A with semaphore value 0; the permit has a
single holder field, so no two identities ever hold it. -/
theorem C1_exclusivity (s : SysState) (A B : String)
    (hreach : Reachable s) (hA : s.current_holder = A) (hAne : A ≠ "")
    (hAB : B ≠ A) (hB : B ≠ "") (hBlen : B.length < 64)
    (hen : s.writer_enabled = true) :
    (try_acquire_writer (some B) s).1 = -3 ∧
    (try_acquire_writer (some B) s).2 = s ∧
    ((try_acquire_writer (some B) s).2).current_holder = A ∧
    get_semaphore_status s = (0, A, 0) := by
  obtain ⟨h1, h2, h3, h4⟩ := reachable_permitInv s hreach
  have hne : s.current_holder ≠ "" := by
    rw [hA]
    exact hAne
  have hlock : s.write_mutex_locked = true := h3.mpr hne
  have hBlen' : ¬ (64 ≤ B.length) := by omega
  have hta : try_acquire_writer (some B) s = (-3, s) := by
    simp [try_acquire_writer, h1, hB, hBlen', hen, hlock]
  have h4A : A.length ≤ 63 := hA ▸ h4
  refine ⟨by rw [hta], by rw [hta], by rw [hta]; exact hA, ?_⟩
  have hneA : A ≠ "" := hAne
  simp [get_semaphore_status, h1, hA, hneA, cTruncate_eq_self A 63 h4A]

/-- Claim C1 witness: with alice holding the permit of the fresh
daemon, bob observes -3 and the status reports alice. -/
theorem C1_exclusivity_witness :
    (try_acquire_writer (some "bob") s_alice).1 = -3 ∧
    (try_acquire_writer (some "bob") s_alice).2 = s_alice ∧
    ((try_acquire_writer (some "bob") s_alice).2).current_holder = "alice" ∧
    get_semaphore_status s_alice = (0, "alice", 0) :=
  C1_exclusivity s_alice "alice" "bob"
    ⟨[Op.tryAcquire (some "alice")], rfl⟩ rfl (by decide) (by decide)
    (by decide) (by decide) rfl

/-- Claim C2: with the managers initialized, a holder name that fits
its buffer, and well-formed arguments, `create_message(user, body)`
succeeds only when the current permit holder equals `user`, and when
the permit is free or held by a different identity it returns
permission-denied (-2) and the state, in particular the message store,
is unchanged. -/
theorem C2_ownership_gate (s : SysState) (u m : String)
    (hsem : s.sem_initialized = true) (hdb : s.db_initialized = true)
    (hh : s.current_holder.length ≤ 63)
    (hu : u ≠ "") (hul : u.length ≤ 64) (hm : m ≠ "") (hml : m.length ≤ 2000) :
    ((create_message (some u) (some m) s).1 = 0 → s.current_holder = u) ∧
    (s.current_holder ≠ u →
      create_message (some u) (some m) s = (-2, s)) := by
  obtain ⟨hok, hfail⟩ := validate_ownership_cases u s hsem hh
  have hval : ¬ (u = "" ∨ 64 < u.length ∨ m = "" ∨ 2000 < m.length) := by
    push_neg
    exact ⟨hu, by omega, hm, by omega⟩
  have hden : ∀ hne : s.current_holder ≠ u,
      create_message (some u) (some m) s = (-2, s) := by
    intro hne
    have hv := hfail hne
    simp [create_message, hdb, hval, hv]
  constructor
  · intro h0
    by_contra hne
    rw [hden hne] at h0
    norm_num at h0
  · exact hden

/-- Claim C2 witness: with alice holding the permit, a create by alice
can only succeed when alice is the holder, and the denial branch is
vacuous. -/
theorem C2_ownership_gate_witness :
    ((create_message (some "alice") (some "hi") s_alice).1 = 0 →
      s_alice.current_holder = "alice") ∧
    (s_alice.current_holder ≠ "alice" →
      create_message (some "alice") (some "hi") s_alice = (-2, s_alice)) :=
  C2_ownership_gate s_alice "alice" "hi" rfl rfl (by decide) (by decide)
    (by decide) (by decide) (by decide)

/-- Claim C3, evaluated at the failing input: identity mallory is not
on the admin allow-list, yet dispatching a LOGS command for mallory
performs the log read and returns success (0), and dispatching a
TOGGLE command for mallory returns success (0) and actually flips the
writer-enabled flag to false.  The privileged wrapper `admin_get_logs`
would have returned permission-denied (-2), but the dispatcher never
calls it. -/
theorem C3_dispatch_skips_privilege :
    is_admin_user (some "mallory") = false ∧
    (execute_command
      { type := .CMD_GET_LOGS, user := "mallory", page := 1, limit := 10 }
      init0).1 = 0 ∧
    (execute_command
      { type := .CMD_TOGGLE_WRITER, user := "mallory", enabled := false }
      init0).1 = 0 ∧
    ((execute_command
      { type := .CMD_TOGGLE_WRITER, user := "mallory", enabled := false }
      init0).2).writer_enabled = false ∧
    (admin_get_logs (some "mallory") 1 10 init0).1 = -2 :=
  ⟨rfl, rfl, rfl, rfl, rfl⟩

/-- Claim C4, evaluated at the failing input: a successful TryAcquire
by alice on the fresh daemon, followed by a successful Release, leaves
both audit sinks empty; the semaphore code never invokes the logger,
so successful Acquire and Release actions produce zero LogEntry
records instead of exactly one. -/
theorem C4_acquire_release_unlogged :
    (try_acquire_writer (some "alice") init0).1 = 0 ∧
    s_alice.dbLog = [] ∧
    s_alice.fileLog = [] ∧
    (release_writer (some "alice") s_alice).1 = 0 ∧
    ((release_writer (some "alice") s_alice).2).dbLog = [] ∧
    ((release_writer (some "alice") s_alice).2).fileLog = [] :=
  ⟨rfl, rfl, rfl, rfl, rfl, rfl⟩

/-- Claim C5: with the semaphore manager initialized and a nonempty
identity, `release_writer(identity)` fails with permission-denied (-2)
whenever the current holder differs from `identity`, leaving the state
and the `Status()` output unchanged; when the holder equals `identity`
it succeeds and the permit becomes free. -/
theorem C5_release_ownership (s : SysState) (u : String)
    (hsem : s.sem_initialized = true) (hu : u ≠ "") :
    (s.current_holder ≠ u →
      release_writer (some u) s = (-2, s) ∧
      get_semaphore_status ((release_writer (some u) s).2) =
        get_semaphore_status s) ∧
    (s.current_holder = u →
      (release_writer (some u) s).1 = 0 ∧
      ((release_writer (some u) s).2).current_holder = "" ∧
      ((release_writer (some u) s).2).write_mutex_locked = false) := by
  constructor
  · intro hne
    have hr : release_writer (some u) s = (-2, s) := by
      simp [release_writer, hsem, hu, hne]
    exact ⟨hr, by rw [hr]⟩
  · intro he
    simp [release_writer, hsem, hu, he]

/-- Claim C5 witness: while alice holds the permit, a release by bob
is denied with the state unchanged, and the success branch is
vacuous. -/
theorem C5_release_ownership_witness :
    (s_alice.current_holder ≠ "bob" →
      release_writer (some "bob") s_alice = (-2, s_alice) ∧
      get_semaphore_status ((release_writer (some "bob") s_alice).2) =
        get_semaphore_status s_alice) ∧
    (s_alice.current_holder = "bob" →
      (release_writer (some "bob") s_alice).1 = 0 ∧
      ((release_writer (some "bob") s_alice).2).current_holder = "" ∧
      ((release_writer (some "bob") s_alice).2).write_mutex_locked = false) :=
  C5_release_ownership s_alice "bob" rfl (by decide)

/-- Claim C6: after `admin_toggle_writer false`, any TryAcquire by a
well-formed identity fails with permission-denied (-2) and leaves the
permit state untouched; after `admin_toggle_writer true` an acquire of
a free permit succeeds and installs the caller as holder; toggling the
flag in either direction never changes the current holder. -/
theorem C6_disable_gate (s : SysState) (u a : String) (b : Bool)
    (x : Option String)
    (hsem : s.sem_initialized = true) (ha : a ≠ "")
    (hu : u ≠ "") (hul : u.length < 64) :
    ((try_acquire_writer (some u)
        (admin_toggle_writer false (some a) s).2).1 = -2 ∧
      (try_acquire_writer (some u)
        (admin_toggle_writer false (some a) s).2).2 =
        (admin_toggle_writer false (some a) s).2) ∧
    (s.write_mutex_locked = false →
      (try_acquire_writer (some u)
        (admin_toggle_writer true (some a) s).2).1 = 0 ∧
      ((try_acquire_writer (some u)
        (admin_toggle_writer true (some a) s).2).2).current_holder = u) ∧
    ((admin_toggle_writer b x s).2).current_holder = s.current_holder := by
  have ht : ∀ c : Bool, (admin_toggle_writer c (some a) s).2
      = { s with writer_enabled := c } := by
    intro c
    simp [admin_toggle_writer, hsem, ha]
  have hlen : ¬ (64 ≤ u.length) := by omega
  refine ⟨?_, ?_, ?_⟩
  · rw [ht]
    constructor <;> simp [try_acquire_writer, hsem, hu, hlen]
  · intro hlock
    rw [ht]
    have hsucc : try_acquire_writer (some u) { s with writer_enabled := true }
        = (0, { s with writer_enabled := true, write_mutex_locked := true,
                       current_holder := cTruncate u 63 }) := by
      simp [try_acquire_writer, hsem, hu, hlen, hlock]
    rw [hsucc]
    exact ⟨rfl, cTruncate_eq_self u 63 (by omega)⟩
  · unfold admin_toggle_writer
    repeat' split
    all_goals rfl

/-- Claim C6 witness: on the fresh daemon, alice is denied after the
admin disables writing, succeeds after it is re-enabled, and the
toggle never changes the holder. -/
theorem C6_disable_gate_witness :
    ((try_acquire_writer (some "alice")
        (admin_toggle_writer false (some "admin") init0).2).1 = -2 ∧
      (try_acquire_writer (some "alice")
        (admin_toggle_writer false (some "admin") init0).2).2 =
        (admin_toggle_writer false (some "admin") init0).2) ∧
    (init0.write_mutex_locked = false →
      (try_acquire_writer (some "alice")
        (admin_toggle_writer true (some "admin") init0).2).1 = 0 ∧
      ((try_acquire_writer (some "alice")
        (admin_toggle_writer true (some "admin") init0).2).2).current_holder
        = "alice") ∧
    ((admin_toggle_writer false (some "admin") init0).2).current_holder =
      init0.current_holder :=
  C6_disable_gate init0 "alice" "admin" false (some "admin") rfl (by decide)
    (by decide) (by decide)

/-- Claim C7, counterexample to the literal statement: a LIST request
with limit 0 or limit 150 is accepted (status 0) by the dispatcher,
not rejected with invalid-input (-4), because the parser clamps the
limit before execution. -/
theorem C7_counterexample :
    (handle_command { action := some "LIST", limit := some 0 } init0).1
      = 0 ∧
    (handle_command { action := some "LIST", limit := some 0 } init0).1
      ≠ -4 ∧
    (handle_command { action := some "LIST", limit := some 150 } init0).1
      = 0 ∧
    (handle_command { action := some "LIST", limit := some 150 } init0).1
      ≠ -4 :=
  ⟨rfl, by decide, rfl, by decide⟩

/-- Claim C7, amended: a LIST request with limit 0 or limit 150 is not
rejected by the dispatcher; the parser clamps the limit to 1 and 100
respectively and the request is accepted.  Only a direct
`list_messages` call bypassing the parser rejects limit 0 and limit
150 with invalid-input (-4).  A request with page 1 and limit 100 is
accepted and reads from offset 0. -/
theorem C7_pagination_clamped (s : SysState) (p : Int)
    (hdb : s.db_initialized = true) :
    (parse_json_command { action := some "LIST", limit := some 0 }).2.limit
      = 1 ∧
    (handle_command { action := some "LIST", limit := some 0 } s).1 = 0 ∧
    (parse_json_command { action := some "LIST", limit := some 150 }).2.limit
      = 100 ∧
    (handle_command { action := some "LIST", limit := some 150 } s).1 = 0 ∧
    (list_messages p 0 s).1 = -4 ∧
    (list_messages p 150 s).1 = -4 ∧
    (list_messages 1 100 s).1 = 0 ∧
    (list_messages 1 100 s).2.1 = s.messages.reverse.take 100 := by
  have h0 : parse_json_command { action := some "LIST", limit := some 0 } =
      (0, { type := .CMD_LIST_MESSAGES, limit := 1 }) := rfl
  have h150 : parse_json_command { action := some "LIST", limit := some 150 }
      = (0, { type := .CMD_LIST_MESSAGES, limit := 100 }) := rfl
  refine ⟨by rw [h0], ?_, by rw [h150], ?_, ?_, ?_, ?_, ?_⟩
  · simp [handle_command, h0, execute_command, list_messages, hdb]
  · simp [handle_command, h150, execute_command, list_messages, hdb]
  · simp [list_messages, hdb]
  · simp [list_messages, hdb]
  · simp [list_messages, hdb]
  · simp [list_messages, hdb]

/-- Claim C7 witness: the amended pagination behavior evaluated on the
fresh daemon with page 1. -/
theorem C7_pagination_clamped_witness :
    (parse_json_command { action := some "LIST", limit := some 0 }).2.limit
      = 1 ∧
    (handle_command { action := some "LIST", limit := some 0 } init0).1
      = 0 ∧
    (parse_json_command { action := some "LIST", limit := some 150 }).2.limit
      = 100 ∧
    (handle_command { action := some "LIST", limit := some 150 } init0).1
      = 0 ∧
    (list_messages 1 0 init0).1 = -4 ∧
    (list_messages 1 150 init0).1 = -4 ∧
    (list_messages 1 100 init0).1 = 0 ∧
    (list_messages 1 100 init0).2.1 = init0.messages.reverse.take 100 :=
  C7_pagination_clamped init0 1 rfl

/-- Claim C8, counterexample to the literal statement: the admin user
force-releases the free permit of the fresh daemon; the call succeeds
and the whole state, including both audit sinks, is unchanged, so no
ADMIN_ACTION entry is appended even though the claim demands exactly
one. -/
theorem C8_counterexample :
    get_semaphore_status init0 = (0, "", 1) ∧
    admin_force_release_semaphore (some "admin") init0 = (0, init0) ∧
    (admin_force_release_semaphore (some "admin") init0).2.dbLog.length
      = 0 ∧
    (admin_force_release_semaphore (some "admin") init0).2.fileLog.length
      = 0 :=
  ⟨rfl, rfl, rfl, rfl⟩

/-- Claim C8, amended: a force release by a well-formed privileged
identity while the permit is free returns success and leaves the
entire state unchanged; in particular it emits no release-type entry
and also no ADMIN_ACTION entry, because the function returns before
any logging in the no-op case. -/
theorem C8_force_release_silent_noop (s : SysState) (a : String)
    (hsem : s.sem_initialized = true) (ha : a ≠ "") (hal : a.length < 64)
    (hadm : is_admin_user (some a) = true) (hfree : s.current_holder = "") :
    admin_force_release_semaphore (some a) s = (0, s) := by
  have hcheck : ¬ (a = "" ∨ 64 ≤ a.length) := by
    push_neg
    exact ⟨ha, by omega⟩
  have hst : get_semaphore_status s = (0, "", 1) := by
    simp [get_semaphore_status, hsem, hfree]
  simp [admin_force_release_semaphore, hcheck, hadm, hst]

/-- Claim C8 witness: the no-op force release on the fresh daemon. -/
theorem C8_force_release_silent_noop_witness :
    admin_force_release_semaphore (some "admin") init0 = (0, init0) :=
  C8_force_release_silent_noop init0 "admin" rfl (by decide) (by decide)
    rfl rfl

/-- Claim C9, counterexample to the equivalence: with alice holding
the permit of the fresh daemon and no message stored, updating message
id 1 as alice yields not-found-or-not-owned (-2) in the relational
implementation but success (0) in the flat-file implementation. -/
theorem C9_counterexample :
    (update_message 1 (some "alice") (some "hi") s_alice).1 = -2 ∧
    (FileDb.update_message 1 "alice" "hi" s_alice).1 = 0 ∧
    ((-2 : Int) ≠ 0) :=
  ⟨rfl, rfl, by decide⟩

/-- Claim C9, amended: the two storage implementations are not
equivalent.  Under well-formed inputs with the caller holding the
permit, the relational `update_message` returns
not-found-or-not-owned (-2) exactly when no message with the given id
authored by the given user exists, while the flat-file implementation
never returns -2: it either appends a new `[UPDATED ID:n]` message and
succeeds, or rejects an over-long composed body with invalid-input. -/
theorem C9_storage_divergence (s : SysState) (id : Int) (u m : String)
    (hsem : s.sem_initialized = true) (hdb : s.db_initialized = true)
    (hh : s.current_holder.length ≤ 63)
    (hu : u ≠ "") (hul : u.length ≤ 64) (hm : m ≠ "") (hml : m.length ≤ 2000)
    (hhold : s.current_holder = u) :
    ((update_message id (some u) (some m) s).1 = -2 ↔
      ¬ ∃ msg ∈ s.messages, msg.id = id ∧ msg.username = u) ∧
    (FileDb.update_message id u m s).1 ≠ -2 := by
  obtain ⟨hok, _⟩ := validate_ownership_cases u s hsem hh
  have hv : validate_semaphore_ownership u s = 0 := hok hhold hu
  have hval : ¬ (u = "" ∨ 64 < u.length ∨ m = "" ∨ 2000 < m.length) := by
    push_neg
    exact ⟨hu, by omega, hm, by omega⟩
  constructor
  · have hupd : (update_message id (some u) (some m) s).1 =
        if s.messages.any (fun msg => msg.id == id && msg.username == u)
        then 0 else -2 := by
      by_cases hany :
          s.messages.any (fun msg => msg.id == id && msg.username == u)
            = true
      · simp [update_message, hdb, hval, hv, hany]
      · simp [update_message, hdb, hval, hv, hany]
    have hiff :
        (s.messages.any (fun msg => msg.id == id && msg.username == u)
          = true)
        ↔ ∃ msg ∈ s.messages, msg.id = id ∧ msg.username = u := by
      simp [List.any_eq_true]
    rw [hupd]
    by_cases hany :
        s.messages.any (fun msg => msg.id == id && msg.username == u)
          = true
    · rw [if_pos hany]
      rw [hiff] at hany
      constructor
      · intro h0
        norm_num at h0
      · intro hno
        exact absurd hany hno
    · rw [if_neg hany]
      rw [hiff] at hany
      exact ⟨fun _ => hany, fun _ => rfl⟩
  · have hne2 : ("[UPDATED ID:" ++ toString id ++ "] " ++ m) ≠ "" := by
      intro hg
      have hz : ("[UPDATED ID:" ++ toString id ++ "] " ++ m).length = 0 := by
        rw [hg]
        rfl
      have h12 : ("[UPDATED ID:" : String).length = 12 := rfl
      rw [String.length_append, String.length_append, String.length_append,
        h12] at hz
      omega
    have hul' : ¬ (64 < u.length) := by omega
    by_cases hlong :
        2000 < ("[UPDATED ID:" ++ toString id ++ "] " ++ m).length
    · have hlong' := hlong
      simp only [String.length_append] at hlong'
      have hres : (FileDb.update_message id u m s).1 = -4 := by
        simp [FileDb.update_message, FileDb.create_message, hdb, hv, hu,
          hul', hne2, hlong']
      rw [hres]
      norm_num
    · have hlong' := hlong
      simp only [String.length_append] at hlong'
      have hres : (FileDb.update_message id u m s).1 = 0 := by
        simp [FileDb.update_message, FileDb.create_message, hdb, hv, hu,
          hul', hne2, hlong']
      rw [hres]
      norm_num

/-- Claim C9 witness: the amended divergence statement evaluated with
alice holding the permit of the fresh daemon and an empty message
store. -/
theorem C9_storage_divergence_witness :
    ((update_message 1 (some "alice") (some "hi") s_alice).1 = -2 ↔
      ¬ ∃ msg ∈ s_alice.messages, msg.id = 1 ∧ msg.username = "alice") ∧
    (FileDb.update_message 1 "alice" "hi" s_alice).1 ≠ -2 :=
  C9_storage_divergence s_alice 1 "alice" "hi" rfl rfl (by decide)
    (by decide) (by decide) (by decide) (by decide) rfl

/-- Claim C10: with the semaphore manager initialized, TryAcquire with
a NULL or empty identity returns invalid-input (-4) and leaves the
state untouched, TryAcquire with an identity of 64 or more characters
also returns -4 with the state untouched, and Release with a NULL or
empty identity returns -4 with the state untouched. -/
theorem C10_invalid_identity (s : SysState) (u : String)
    (hsem : s.sem_initialized = true) (hlen : 64 ≤ u.length) :
    try_acquire_writer none s = (-4, s) ∧
    try_acquire_writer (some "") s = (-4, s) ∧
    try_acquire_writer (some u) s = (-4, s) ∧
    release_writer none s = (-4, s) ∧
    release_writer (some "") s = (-4, s) := by
  refine ⟨?_, ?_, ?_, ?_, ?_⟩
  · simp [try_acquire_writer, hsem]
  · simp [try_acquire_writer, hsem]
  · by_cases hu : u = ""
    · simp [try_acquire_writer, hsem, hu]
    · simp [try_acquire_writer, hsem, hu, hlen]
  · simp [release_writer, hsem]
  · simp [release_writer, hsem]

/-- Claim C10 witness: on the fresh daemon, NULL, the empty string and
a 64-character identity are all rejected with -4 and the state is
untouched. -/
theorem C10_invalid_identity_witness :
    try_acquire_writer none init0 = (-4, init0) ∧
    try_acquire_writer (some "") init0 = (-4, init0) ∧
    try_acquire_writer (some longName) init0 = (-4, init0) ∧
    release_writer none init0 = (-4, init0) ∧
    release_writer (some "") init0 = (-4, init0) :=
  C10_invalid_identity init0 longName rfl (by decide)
